import Mathlib

/-!
Verification of the USB Charge Controller charge-scheduling state machine.

The definitions below are a shallow embedding of the logic in
src/USB_Charge_Controller/USB_Charge_Controller.ino: the global `state`
struct, the `powerManagement` timer callback (the charge-state decision
function, including its `static bool counterEnabled` local and the
progress-bar update at its end), the `BLYNK_WRITE(SCHEDULE)` custom
schedule editor, the `BLYNK_WRITE(FORCE_DISABLE)` toggle, and the
hardware debounce gate (`manualOverride` ISR plus the debounce-window
management at the top of `loop`).

Times are modelled as integer seconds (`time_t`); the float
`chargeProgress` is modelled as a rational; millisecond counters are
naturals reduced mod 2^32 as in the `uint32_t` source arithmetic.
-/

namespace USBCC

/-- The `ChargeState` enum of the sketch. -/
inductive ChargeState where
  | S_MANUAL
  | S_CHARGING
  | S_DISABLED
  | S_QUIESCENT
  deriving DecidableEq, Repr

/-- The global `state` struct of the sketch, together with the
`static bool counterEnabled` local of `powerManagement` (it persists
across calls exactly like a field). -/
structure State where
  start : Int
  stop : Int
  menuSelection : Nat
  chargeState : ChargeState
  lastChargeState : ChargeState
  manual : Bool
  disable : Bool
  charging : Bool
  runtimeStart : Int
  chargeProgress : ℚ
  savedRuntime : Int
  counterEnabled : Bool
  deriving DecidableEq, Repr

/-- `hour(t)` of the Time library: hours into the current day. -/
def hourOf (t : Int) : Int := (t / 3600) % 24

/-- `minute(t)` of the Time library. -/
def minuteOf (t : Int) : Int := (t / 60) % 60

/-- `second(t)` of the Time library. -/
def secondOf (t : Int) : Int := t % 60

/-- `currentTimeinSecs` as computed at the top of `powerManagement`:
`3600 * hour(timeNow) + 60 * minute(timeNow) + second(timeNow)`. -/
def currentTimeinSecs (t : Int) : Int :=
  3600 * hourOf t + 60 * minuteOf t + secondOf t

/-- The progress-bar block at the end of `powerManagement`: while charging
in state `S_CHARGING`, `chargeProgress` is recomputed as
`(now - runtimeStart + savedRuntime) / (stop - start) * 100`; the
`S_MANUAL` arm only formats a string and changes no state. -/
def progressUpdate (s : State) (timeNow : Int) : State :=
  if s.charging = true ∧ s.chargeState = ChargeState.S_CHARGING then
    { s with chargeProgress :=
        ((timeNow - s.runtimeStart + s.savedRuntime : Int) : ℚ)
          / ((s.stop - s.start : Int) : ℚ) * 100 }
  else s

/-- One invocation of the `powerManagement` timer callback, as a pure
function of the pre-state and the tick time. The second component is the
state-change notification: the Blynk LED/label update block that is
guarded by `state.chargeState != state.lastChargeState`, carrying the new
state (`none` when the guard suppressed it). -/
def powerManagement (s : State) (timeNow : Int) : State × Option ChargeState :=
  let cts := currentTimeinSecs timeNow
  if s.disable = false then
    if s.start ≤ cts ∧ cts < s.stop then
      let s1 := if s.counterEnabled = false then
          { s with counterEnabled := true, runtimeStart := timeNow } else s
      let s2 := { s1 with chargeState := ChargeState.S_CHARGING }
      let notify := if s2.chargeState ≠ s2.lastChargeState then some s2.chargeState else none
      let s3 := if s2.chargeState ≠ s2.lastChargeState then
          { s2 with lastChargeState := s2.chargeState } else s2
      let s4 := { s3 with charging := true, manual := false }
      (progressUpdate s4 timeNow, notify)
    else if s.manual = true then
      let s1 := if s.counterEnabled = false then
          { s with counterEnabled := true, runtimeStart := timeNow } else s
      let s2 := { s1 with chargeState := ChargeState.S_MANUAL }
      let notify := if s2.chargeState ≠ s2.lastChargeState then some s2.chargeState else none
      let s3 := if s2.chargeState ≠ s2.lastChargeState then
          { s2 with lastChargeState := s2.chargeState } else s2
      let s4 := { s3 with charging := true, savedRuntime := 0 }
      (progressUpdate s4 timeNow, notify)
    else
      let s2 := { s with chargeState := ChargeState.S_QUIESCENT }
      let notify := if s2.chargeState ≠ s2.lastChargeState then some s2.chargeState else none
      let s3 := if s2.chargeState ≠ s2.lastChargeState then
          { s2 with lastChargeState := s2.chargeState } else s2
      let s4 := { s3 with counterEnabled := false, charging := false, savedRuntime := 0 }
      (progressUpdate s4 timeNow, notify)
  else
    let s1 := if s.chargeState = ChargeState.S_CHARGING then
        { s with savedRuntime := s.savedRuntime + (timeNow - s.runtimeStart) } else s
    let s2 := { s1 with chargeState := ChargeState.S_DISABLED }
    let notify := if s2.chargeState ≠ s2.lastChargeState then some s2.chargeState else none
    let s3 := if s2.chargeState ≠ s2.lastChargeState then
        { s2 with lastChargeState := s2.chargeState } else s2
    let s4 := { s3 with counterEnabled := false, charging := false, manual := false }
    (progressUpdate s4 timeNow, notify)

/-- A `BLYNK_WRITE(SCHEDULE)` command: whether each bound is present
(`hasStartTime()` / `hasStopTime()`) and its raw integer value. -/
structure ScheduleCmd where
  hasStartTime : Bool
  startVal : Int
  hasStopTime : Bool
  stopVal : Int
  deriving DecidableEq, Repr

/-- The `BLYNK_WRITE(SCHEDULE)` handler: each bound is applied only when
present and different from the sentinel `-1`; the trailing normalization
block is translated exactly as written in the source, including its
double assignment to `start` (`temp = start; start = stop; start = temp`),
and the handler ends by forcing `menuSelection` to the custom id 4. -/
def blynkWriteSchedule (s : State) (cmd : ScheduleCmd) : State :=
  let s1 := if cmd.hasStartTime = true ∧ cmd.startVal ≠ -1 then
      { s with start := cmd.startVal } else s
  let s2 := if cmd.hasStopTime = true ∧ cmd.stopVal ≠ -1 then
      { s1 with stop := cmd.stopVal } else s1
  let s3 := if s2.stop < s2.start then
      let temp := s2.start
      let s3a := { s2 with start := s2.stop }
      { s3a with start := temp }
    else s2
  { s3 with menuSelection := 4 }

/-- The accepted path of `BLYNK_WRITE(FORCE_DISABLE)`:
`state.disable = !state.disable`. -/
def toggleDisable (s : State) : State := { s with disable := !s.disable }

/-- The shared debounce-gate state: the `volatile` flags `debounce` and
`debounceStart` and the `state.manual` flag the ISR toggles. -/
structure DebounceState where
  debounce : Bool
  debounceStart : Nat
  manual : Bool
  deriving DecidableEq, Repr

/-- 2^32, the modulus of the `uint32_t` millisecond arithmetic. -/
def U32 : Nat := 4294967296

/-- The `manualOverride` ISR: when no debounce window is open, open one at
the current `millis()` and flip `manual`; otherwise drop the edge. -/
def manualOverride (d : DebounceState) (nowMillis : Nat) : DebounceState :=
  if d.debounce = false then
    { debounce := true, debounceStart := nowMillis % U32, manual := !d.manual }
  else d

/-- The debounce-window management at the top of `loop`: close the window
once `millis() - debounceStart > DEBOUNCE_TIME` (250), with the
subtraction performed in `uint32_t`. -/
def loopDebounce (d : DebounceState) (nowMillis : Nat) : DebounceState :=
  if d.debounce = true ∧ ((nowMillis % U32) + U32 - d.debounceStart) % U32 > 250 then
    { d with debounce := false }
  else d

/-- Run the `loop` debounce management at each of a list of times. -/
def runLoop (d : DebounceState) (times : List Nat) : DebounceState :=
  times.foldl loopDebounce d

/-- The initial values of the `state` struct at boot: default 6-hour
window starting at midnight, quiescent, all flags clear. -/
def initialState : State :=
  { start := 0, stop := 6 * 3600, menuSelection := 1,
    chargeState := ChargeState.S_QUIESCENT,
    lastChargeState := ChargeState.S_QUIESCENT,
    manual := false, disable := false, charging := false,
    runtimeStart := 0, chargeProgress := 0, savedRuntime := 0,
    counterEnabled := false }

/-- Field-level characterization of the `S_CHARGING` branch of
`powerManagement` (disable clear, current time inside the window). -/
theorem pm_charging (s : State) (t : Int) (hd : s.disable = false)
    (hw : s.start ≤ currentTimeinSecs t ∧ currentTimeinSecs t < s.stop) :
    (powerManagement s t).1.chargeState = ChargeState.S_CHARGING ∧
    (powerManagement s t).1.lastChargeState = ChargeState.S_CHARGING ∧
    (powerManagement s t).1.charging = true ∧
    (powerManagement s t).1.manual = false ∧
    (powerManagement s t).1.counterEnabled = true ∧
    (powerManagement s t).1.runtimeStart =
      (if s.counterEnabled = false then t else s.runtimeStart) ∧
    (powerManagement s t).1.savedRuntime = s.savedRuntime ∧
    (powerManagement s t).1.disable = s.disable ∧
    (powerManagement s t).1.start = s.start ∧
    (powerManagement s t).1.stop = s.stop ∧
    (powerManagement s t).1.chargeProgress =
      ((t - (if s.counterEnabled = false then t else s.runtimeStart)
          + s.savedRuntime : Int) : ℚ) / ((s.stop - s.start : Int) : ℚ) * 100 ∧
    (powerManagement s t).2 =
      (if s.lastChargeState = ChargeState.S_CHARGING then none
       else some ChargeState.S_CHARGING) := by
  rcases hcE : s.counterEnabled with _ | _ <;>
    by_cases hl : s.lastChargeState = ChargeState.S_CHARGING
  · simp [powerManagement, progressUpdate, hd, hw, hcE, hl]
  · simp [powerManagement, progressUpdate, hd, hw, hcE, hl, Ne.symm hl]
  · simp [powerManagement, progressUpdate, hd, hw, hcE, hl]
  · simp [powerManagement, progressUpdate, hd, hw, hcE, hl, Ne.symm hl]

/-- Field-level characterization of the `S_MANUAL` branch of
`powerManagement` (disable clear, outside the window, manual set). -/
theorem pm_manual (s : State) (t : Int) (hd : s.disable = false)
    (hw : ¬(s.start ≤ currentTimeinSecs t ∧ currentTimeinSecs t < s.stop))
    (hm : s.manual = true) :
    (powerManagement s t).1.chargeState = ChargeState.S_MANUAL ∧
    (powerManagement s t).1.lastChargeState = ChargeState.S_MANUAL ∧
    (powerManagement s t).1.charging = true ∧
    (powerManagement s t).1.manual = true ∧
    (powerManagement s t).1.counterEnabled = true ∧
    (powerManagement s t).1.runtimeStart =
      (if s.counterEnabled = false then t else s.runtimeStart) ∧
    (powerManagement s t).1.savedRuntime = 0 ∧
    (powerManagement s t).1.disable = s.disable ∧
    (powerManagement s t).1.start = s.start ∧
    (powerManagement s t).1.stop = s.stop ∧
    (powerManagement s t).1.chargeProgress = s.chargeProgress ∧
    (powerManagement s t).2 =
      (if s.lastChargeState = ChargeState.S_MANUAL then none
       else some ChargeState.S_MANUAL) := by
  rcases hcE : s.counterEnabled with _ | _ <;>
    by_cases hl : s.lastChargeState = ChargeState.S_MANUAL
  · simp [powerManagement, progressUpdate, hd, hw, hm, hcE, hl]
  · simp [powerManagement, progressUpdate, hd, hw, hm, hcE, hl, Ne.symm hl]
  · simp [powerManagement, progressUpdate, hd, hw, hm, hcE, hl]
  · simp [powerManagement, progressUpdate, hd, hw, hm, hcE, hl, Ne.symm hl]

/-- Field-level characterization of the `S_QUIESCENT` branch of
`powerManagement` (disable clear, outside the window, manual clear). -/
theorem pm_quiescent (s : State) (t : Int) (hd : s.disable = false)
    (hw : ¬(s.start ≤ currentTimeinSecs t ∧ currentTimeinSecs t < s.stop))
    (hm : s.manual = false) :
    (powerManagement s t).1.chargeState = ChargeState.S_QUIESCENT ∧
    (powerManagement s t).1.lastChargeState = ChargeState.S_QUIESCENT ∧
    (powerManagement s t).1.charging = false ∧
    (powerManagement s t).1.manual = false ∧
    (powerManagement s t).1.counterEnabled = false ∧
    (powerManagement s t).1.runtimeStart = s.runtimeStart ∧
    (powerManagement s t).1.savedRuntime = 0 ∧
    (powerManagement s t).1.disable = s.disable ∧
    (powerManagement s t).1.start = s.start ∧
    (powerManagement s t).1.stop = s.stop ∧
    (powerManagement s t).1.chargeProgress = s.chargeProgress ∧
    (powerManagement s t).2 =
      (if s.lastChargeState = ChargeState.S_QUIESCENT then none
       else some ChargeState.S_QUIESCENT) := by
  by_cases hl : s.lastChargeState = ChargeState.S_QUIESCENT
  · simp [powerManagement, progressUpdate, hd, hw, hm, hl]
  · simp [powerManagement, progressUpdate, hd, hw, hm, hl, Ne.symm hl]

/-- Field-level characterization of the `S_DISABLED` branch of
`powerManagement` (disable set). -/
theorem pm_disabled (s : State) (t : Int) (hd : s.disable = true) :
    (powerManagement s t).1.chargeState = ChargeState.S_DISABLED ∧
    (powerManagement s t).1.lastChargeState = ChargeState.S_DISABLED ∧
    (powerManagement s t).1.charging = false ∧
    (powerManagement s t).1.manual = false ∧
    (powerManagement s t).1.counterEnabled = false ∧
    (powerManagement s t).1.runtimeStart = s.runtimeStart ∧
    (powerManagement s t).1.savedRuntime =
      (if s.chargeState = ChargeState.S_CHARGING then
        s.savedRuntime + (t - s.runtimeStart) else s.savedRuntime) ∧
    (powerManagement s t).1.disable = s.disable ∧
    (powerManagement s t).1.start = s.start ∧
    (powerManagement s t).1.stop = s.stop ∧
    (powerManagement s t).1.chargeProgress = s.chargeProgress ∧
    (powerManagement s t).2 =
      (if s.lastChargeState = ChargeState.S_DISABLED then none
       else some ChargeState.S_DISABLED) := by
  by_cases hp : s.chargeState = ChargeState.S_CHARGING <;>
    by_cases hl : s.lastChargeState = ChargeState.S_DISABLED
  · simp [powerManagement, progressUpdate, hd, hp, hl]
  · simp [powerManagement, progressUpdate, hd, hp, hl, Ne.symm hl]
  · simp [powerManagement, progressUpdate, hd, hp, hl]
  · simp [powerManagement, progressUpdate, hd, hp, hl, Ne.symm hl]

/-- C1: the claim says an inverted window after a custom edit is repaired by
swapping the bounds, so the stored window always satisfies start ≤ stop. The
source's normalization block assigns `start = stop; start = temp` and never
writes `stop`: editing start to 30000 with a stop sentinel over the stored
window [0, 21600] leaves start = 30000 and stop = 21600, an inverted window. -/
theorem C1_swap_defect :
    (blynkWriteSchedule initialState
      { hasStartTime := true, startVal := 30000, hasStopTime := true, stopVal := -1 }).start
        = 30000 ∧
    (blynkWriteSchedule initialState
      { hasStartTime := true, startVal := 30000, hasStopTime := true, stopVal := -1 }).stop
        = 21600 ∧
    ¬((blynkWriteSchedule initialState
      { hasStartTime := true, startVal := 30000, hasStopTime := true, stopVal := -1 }).start ≤
      (blynkWriteSchedule initialState
      { hasStartTime := true, startVal := 30000, hasStopTime := true, stopVal := -1 }).stop) := by
  decide

/-- C2: on any evaluation tick with `disable = true`, whatever the time of
day, schedule window, and manual flag, the resulting state is `S_DISABLED`
and the power-enable output (`state.charging`) is false. -/
theorem C2_disable_overrides (s : State) (t : Int) (hd : s.disable = true) :
    (powerManagement s t).1.chargeState = ChargeState.S_DISABLED ∧
    (powerManagement s t).1.charging = false :=
  ⟨(pm_disabled s t hd).1, (pm_disabled s t hd).2.2.1⟩

/-- Witness for C2 at a concrete input: disabled with manual set and the
time inside the window, yet the tick yields Disabled with power off. -/
theorem C2_witness :
    ({ initialState with disable := true, manual := true } : State).disable = true ∧
    ((powerManagement { initialState with disable := true, manual := true } 3600).1.chargeState
        = ChargeState.S_DISABLED ∧
     (powerManagement { initialState with disable := true, manual := true } 3600).1.charging
        = false) :=
  ⟨rfl, C2_disable_overrides { initialState with disable := true, manual := true } 3600 rfl⟩

/-- C3: on any tick with `disable = false`: inside `[start, stop)` the state
is Charging with power on regardless of `manual`, and `manual` is forced back
to false; outside the window, `manual = true` gives Manual with power on and
`manual = false` gives Quiescent with power off. -/
theorem C3_decision_order (s : State) (t : Int) (hd : s.disable = false) :
    ((s.start ≤ currentTimeinSecs t ∧ currentTimeinSecs t < s.stop) →
      (powerManagement s t).1.chargeState = ChargeState.S_CHARGING ∧
      (powerManagement s t).1.charging = true ∧
      (powerManagement s t).1.manual = false) ∧
    (¬(s.start ≤ currentTimeinSecs t ∧ currentTimeinSecs t < s.stop) → s.manual = true →
      (powerManagement s t).1.chargeState = ChargeState.S_MANUAL ∧
      (powerManagement s t).1.charging = true) ∧
    (¬(s.start ≤ currentTimeinSecs t ∧ currentTimeinSecs t < s.stop) → s.manual = false →
      (powerManagement s t).1.chargeState = ChargeState.S_QUIESCENT ∧
      (powerManagement s t).1.charging = false) := by
  refine ⟨fun hw => ?_, fun hw hm => ?_, fun hw hm => ?_⟩
  · exact ⟨(pm_charging s t hd hw).1, (pm_charging s t hd hw).2.2.1,
      (pm_charging s t hd hw).2.2.2.1⟩
  · exact ⟨(pm_manual s t hd hw hm).1, (pm_manual s t hd hw hm).2.2.1⟩
  · exact ⟨(pm_quiescent s t hd hw hm).1, (pm_quiescent s t hd hw hm).2.2.1⟩

/-- Witness for C3 at concrete inputs: in-window at 01:00 with manual set
gives Charging; out-of-window at 08:20 gives Manual when manual is set and
Quiescent when it is clear. -/
theorem C3_witness :
    ((powerManagement { initialState with manual := true } 3600).1.chargeState
        = ChargeState.S_CHARGING ∧
     (powerManagement { initialState with manual := true } 3600).1.manual = false) ∧
    (powerManagement { initialState with manual := true } 30000).1.chargeState
        = ChargeState.S_MANUAL ∧
    (powerManagement initialState 30000).1.chargeState = ChargeState.S_QUIESCENT :=
  ⟨⟨((C3_decision_order { initialState with manual := true } 3600 rfl).1 (by decide)).1,
    ((C3_decision_order { initialState with manual := true } 3600 rfl).1 (by decide)).2.2⟩,
   ((C3_decision_order { initialState with manual := true } 30000 rfl).2.1 (by decide) rfl).1,
   ((C3_decision_order initialState 30000 rfl).2.2 (by decide) rfl).1⟩

/-- C9: a schedule edit carrying the sentinel −1 for one bound and a real
value for the other updates only the non-sentinel bound, leaves the sentinel
bound unchanged, and is never rejected as a whole (the handler completes and
selects the custom menu entry). -/
theorem C9_sentinel_frame (s : State) (v : Int) (hv : v ≠ -1) :
    ((blynkWriteSchedule s
        { hasStartTime := true, startVal := v, hasStopTime := true, stopVal := -1 }).start = v ∧
     (blynkWriteSchedule s
        { hasStartTime := true, startVal := v, hasStopTime := true, stopVal := -1 }).stop = s.stop ∧
     (blynkWriteSchedule s
        { hasStartTime := true, startVal := v, hasStopTime := true, stopVal := -1 }).menuSelection = 4) ∧
    ((blynkWriteSchedule s
        { hasStartTime := true, startVal := -1, hasStopTime := true, stopVal := v }).start = s.start ∧
     (blynkWriteSchedule s
        { hasStartTime := true, startVal := -1, hasStopTime := true, stopVal := v }).stop = v ∧
     (blynkWriteSchedule s
        { hasStartTime := true, startVal := -1, hasStopTime := true, stopVal := v }).menuSelection = 4) := by
  constructor
  · by_cases hlt : s.stop < v <;> simp [blynkWriteSchedule, hv, hlt]
  · by_cases hlt : v < s.start <;> simp [blynkWriteSchedule, hv, hlt]

/-- Witness for C9 at the spec's example: `{start: 7200, stop: -1}` over the
default window changes start to 7200 and leaves stop at 21600. -/
theorem C9_witness :
    (7200 : Int) ≠ -1 ∧
    (blynkWriteSchedule initialState
      { hasStartTime := true, startVal := 7200, hasStopTime := true, stopVal := -1 }).start = 7200 ∧
    (blynkWriteSchedule initialState
      { hasStartTime := true, startVal := 7200, hasStopTime := true, stopVal := -1 }).stop
        = initialState.stop :=
  ⟨by decide, (C9_sentinel_frame initialState 7200 (by decide)).1.1,
   (C9_sentinel_frame initialState 7200 (by decide)).1.2.1⟩

/-- A reachable pre-state for the Manual-to-Charging transition: the previous
tick ran the Manual branch (window [7200, 21600), manual set, runtime counter
active since 5000), and the next tick falls inside the window. -/
def manualThenWindow : State :=
  { initialState with
    start := 7200, stop := 21600,
    chargeState := ChargeState.S_MANUAL, lastChargeState := ChargeState.S_MANUAL,
    manual := true, charging := true, counterEnabled := true, runtimeStart := 5000 }

/-- C5 counterexample: when the immediately preceding state was Manual, the
runtime counter is still enabled, so the tick that enters Charging does NOT
set sessionStart to the current time: from `manualThenWindow` at time 7300
the state becomes Charging but runtimeStart stays 5000 ≠ 7300. -/
theorem C5_counterexample :
    (powerManagement manualThenWindow 7300).1.chargeState = ChargeState.S_CHARGING ∧
    (powerManagement manualThenWindow 7300).1.runtimeStart = 5000 ∧
    ((5000 : Int) ≠ 7300) := by decide

/-- C5 (amended): a tick that enters Charging or Manual while the runtime
counter is inactive (the previous evaluation was not in a counted state) sets
sessionStart to the current time; but a tick that enters Charging while the
counter is already active — in particular straight after a Manual tick —
keeps the existing sessionStart, continuing the session. -/
theorem C5_session_start (s : State) (t : Int) (hd : s.disable = false) :
    (s.counterEnabled = false →
      ((s.start ≤ currentTimeinSecs t ∧ currentTimeinSecs t < s.stop) →
        (powerManagement s t).1.chargeState = ChargeState.S_CHARGING ∧
        (powerManagement s t).1.runtimeStart = t) ∧
      (¬(s.start ≤ currentTimeinSecs t ∧ currentTimeinSecs t < s.stop) → s.manual = true →
        (powerManagement s t).1.chargeState = ChargeState.S_MANUAL ∧
        (powerManagement s t).1.runtimeStart = t)) ∧
    (s.counterEnabled = true →
      (s.start ≤ currentTimeinSecs t ∧ currentTimeinSecs t < s.stop) →
        (powerManagement s t).1.runtimeStart = s.runtimeStart) := by
  refine ⟨fun hc => ⟨fun hw => ?_, fun hw hm => ?_⟩, fun hc hw => ?_⟩
  · exact ⟨(pm_charging s t hd hw).1, by
      rw [(pm_charging s t hd hw).2.2.2.2.2.1, if_pos hc]⟩
  · exact ⟨(pm_manual s t hd hw hm).1, by
      rw [(pm_manual s t hd hw hm).2.2.2.2.2.1, if_pos hc]⟩
  · rw [(pm_charging s t hd hw).2.2.2.2.2.1, if_neg (by simp [hc])]

/-- Witness for C5 (amended) at concrete inputs: a fresh session inside the
window starts at the tick time, while a tick from `manualThenWindow` (counter
already active) keeps runtimeStart = 5000. -/
theorem C5_witness :
    ((powerManagement initialState 3600).1.chargeState = ChargeState.S_CHARGING ∧
     (powerManagement initialState 3600).1.runtimeStart = 3600) ∧
    (powerManagement manualThenWindow 7300).1.runtimeStart = manualThenWindow.runtimeStart :=
  ⟨((C5_session_start initialState 3600 rfl).1 rfl).1 (by decide),
   (C5_session_start manualThenWindow 7300 rfl).2 rfl (by decide)⟩

/-- C10: every tick with disable set also clears the manual flag; hence after
disable is toggled off while the time of day is outside the window, the next
tick yields Quiescent with power off rather than resuming a pending Manual
session. -/
theorem C10_disable_clears_manual (s : State) (t u : Int) (hd : s.disable = true)
    (hout : ¬(s.start ≤ currentTimeinSecs u ∧ currentTimeinSecs u < s.stop)) :
    (powerManagement s t).1.manual = false ∧
    (powerManagement (toggleDisable (powerManagement s t).1) u).1.chargeState
        = ChargeState.S_QUIESCENT ∧
    (powerManagement (toggleDisable (powerManagement s t).1) u).1.charging = false := by
  obtain ⟨e1, e2, e3, hman, e5, e6, e7, hdis, hst, hsp, e11, e12⟩ := pm_disabled s t hd
  have hd2 : (toggleDisable (powerManagement s t).1).disable = false := by
    simp [toggleDisable, hdis, hd]
  have hm2 : (toggleDisable (powerManagement s t).1).manual = false := by
    simp [toggleDisable, hman]
  have hout2 : ¬((toggleDisable (powerManagement s t).1).start ≤ currentTimeinSecs u ∧
      currentTimeinSecs u < (toggleDisable (powerManagement s t).1).stop) := by
    simpa [toggleDisable, hst, hsp] using hout
  exact ⟨hman, (pm_quiescent _ u hd2 hout2 hm2).1, (pm_quiescent _ u hd2 hout2 hm2).2.2.1⟩

/-- Witness for C10 at a concrete input: disabled with a pending manual flag
at 01:00; after toggling disable off, the 08:20 tick is Quiescent. -/
theorem C10_witness :
    (powerManagement { initialState with disable := true, manual := true } 3600).1.manual
        = false ∧
    (powerManagement (toggleDisable
      (powerManagement { initialState with disable := true, manual := true } 3600).1) 30000).1.chargeState
        = ChargeState.S_QUIESCENT :=
  ⟨(C10_disable_clears_manual { initialState with disable := true, manual := true } 3600 30000
      rfl (by decide)).1,
   (C10_disable_clears_manual { initialState with disable := true, manual := true } 3600 30000
      rfl (by decide)).2.1⟩

/-- C7: re-running the evaluation with unchanged inputs gives the same state
and power-enable and fires no notification; a tick leaves
`lastChargeState = chargeState`, the notification fires exactly when the new
state differs from the previously notified one, and it carries the new state. -/
theorem C7_idempotent_once (s : State) (t : Int) :
    (powerManagement s t).1.lastChargeState = (powerManagement s t).1.chargeState ∧
    (powerManagement (powerManagement s t).1 t).1.chargeState
        = (powerManagement s t).1.chargeState ∧
    (powerManagement (powerManagement s t).1 t).1.charging
        = (powerManagement s t).1.charging ∧
    (powerManagement (powerManagement s t).1 t).2 = none ∧
    (powerManagement s t).2 =
      (if s.lastChargeState = (powerManagement s t).1.chargeState then none
       else some (powerManagement s t).1.chargeState) := by
  by_cases hd : s.disable = false
  · by_cases hw : s.start ≤ currentTimeinSecs t ∧ currentTimeinSecs t < s.stop
    · obtain ⟨e1, e2, e3, e4, e5, e6, e7, e8, e9, e10, e11, e12⟩ := pm_charging s t hd hw
      have hd1 : (powerManagement s t).1.disable = false := by rw [e8]; exact hd
      have hw1 : (powerManagement s t).1.start ≤ currentTimeinSecs t ∧
          currentTimeinSecs t < (powerManagement s t).1.stop := by rw [e9, e10]; exact hw
      obtain ⟨f1, f2, f3, f4, f5, f6, f7, f8, f9, f10, f11, f12⟩ :=
        pm_charging (powerManagement s t).1 t hd1 hw1
      refine ⟨by rw [e1, e2], by rw [f1, e1], by rw [f3, e3], by rw [f12, if_pos e2], ?_⟩
      rw [e1]; exact e12
    · by_cases hm : s.manual = true
      · obtain ⟨e1, e2, e3, e4, e5, e6, e7, e8, e9, e10, e11, e12⟩ := pm_manual s t hd hw hm
        have hd1 : (powerManagement s t).1.disable = false := by rw [e8]; exact hd
        have hw1 : ¬((powerManagement s t).1.start ≤ currentTimeinSecs t ∧
            currentTimeinSecs t < (powerManagement s t).1.stop) := by rw [e9, e10]; exact hw
        obtain ⟨f1, f2, f3, f4, f5, f6, f7, f8, f9, f10, f11, f12⟩ :=
          pm_manual (powerManagement s t).1 t hd1 hw1 e4
        refine ⟨by rw [e1, e2], by rw [f1, e1], by rw [f3, e3], by rw [f12, if_pos e2], ?_⟩
        rw [e1]; exact e12
      · have hm2 : s.manual = false := by simpa using hm
        obtain ⟨e1, e2, e3, e4, e5, e6, e7, e8, e9, e10, e11, e12⟩ :=
          pm_quiescent s t hd hw hm2
        have hd1 : (powerManagement s t).1.disable = false := by rw [e8]; exact hd
        have hw1 : ¬((powerManagement s t).1.start ≤ currentTimeinSecs t ∧
            currentTimeinSecs t < (powerManagement s t).1.stop) := by rw [e9, e10]; exact hw
        obtain ⟨f1, f2, f3, f4, f5, f6, f7, f8, f9, f10, f11, f12⟩ :=
          pm_quiescent (powerManagement s t).1 t hd1 hw1 e4
        refine ⟨by rw [e1, e2], by rw [f1, e1], by rw [f3, e3], by rw [f12, if_pos e2], ?_⟩
        rw [e1]; exact e12
  · have hd2 : s.disable = true := by simpa using hd
    obtain ⟨e1, e2, e3, e4, e5, e6, e7, e8, e9, e10, e11, e12⟩ := pm_disabled s t hd2
    have hd1 : (powerManagement s t).1.disable = true := by rw [e8]; exact hd2
    obtain ⟨f1, f2, f3, f4, f5, f6, f7, f8, f9, f10, f11, f12⟩ :=
      pm_disabled (powerManagement s t).1 t hd1
    refine ⟨by rw [e1, e2], by rw [f1, e1], by rw [f3, e3], by rw [f12, if_pos e2], ?_⟩
    rw [e1]; exact e12

/-- C6: whenever a tick ends in the Charging state, the reported progress
equals (now − sessionStart + savedSeconds) / (stop − start) × 100; and in the
spec's scenario (window 00:00–06:00, session begun at midnight, evaluated at
02:00:00) the progress is 100/3, displayed as 33 percent. -/
theorem C6_progress_formula (s : State) (t : Int) :
    ((powerManagement s t).1.chargeState = ChargeState.S_CHARGING →
      (powerManagement s t).1.chargeProgress =
        ((t - (powerManagement s t).1.runtimeStart
            + (powerManagement s t).1.savedRuntime : Int) : ℚ)
          / (((powerManagement s t).1.stop - (powerManagement s t).1.start : Int) : ℚ)
          * 100) ∧
    (powerManagement (powerManagement initialState 0).1 7200).1.chargeProgress = 100 / 3 ∧
    Int.floor (powerManagement (powerManagement initialState 0).1 7200).1.chargeProgress
        = 33 := by
  obtain ⟨a1, a2, a3, a4, a5, a6, a7, a8, a9, a10, a11, a12⟩ :=
    pm_charging initialState 0 rfl (by decide)
  have hd1 : (powerManagement initialState 0).1.disable = false := by rw [a8]; rfl
  have hw1 : (powerManagement initialState 0).1.start ≤ currentTimeinSecs 7200 ∧
      currentTimeinSecs 7200 < (powerManagement initialState 0).1.stop := by
    rw [a9, a10]; decide
  obtain ⟨b1, b2, b3, b4, b5, b6, b7, b8, b9, b10, b11, b12⟩ :=
    pm_charging (powerManagement initialState 0).1 7200 hd1 hw1
  have hc1 : ¬((powerManagement initialState 0).1.counterEnabled = false) := by rw [a5]; simp
  have a6x : (powerManagement initialState 0).1.runtimeStart = 0 := by rw [a6]; decide
  have a7x : (powerManagement initialState 0).1.savedRuntime = 0 := by rw [a7]; rfl
  have hprog : (powerManagement (powerManagement initialState 0).1 7200).1.chargeProgress
      = 100 / 3 := by
    rw [b11, if_neg hc1, a6x, a7x, a9, a10]
    norm_num [initialState]
  refine ⟨fun h => ?_, hprog, ?_⟩
  · by_cases hd : s.disable = false
    · by_cases hw : s.start ≤ currentTimeinSecs t ∧ currentTimeinSecs t < s.stop
      · obtain ⟨e1, e2, e3, e4, e5, e6, e7, e8, e9, e10, e11, e12⟩ := pm_charging s t hd hw
        rw [e6, e7, e9, e10]; exact e11
      · by_cases hm : s.manual = true
        · rw [(pm_manual s t hd hw hm).1] at h; simp at h
        · have hm2 : s.manual = false := by simpa using hm
          rw [(pm_quiescent s t hd hw hm2).1] at h; simp at h
    · have hd2 : s.disable = true := by simpa using hd
      rw [(pm_disabled s t hd2).1] at h; simp at h
  · rw [hprog, Int.floor_eq_iff]
    norm_num

/-- Witness for C6 at a concrete input: the first tick from boot at 01:00
lies in the window, so the formula instance holds there. -/
theorem C6_witness :
    (powerManagement initialState 3600).1.chargeProgress =
      ((3600 - (powerManagement initialState 3600).1.runtimeStart
          + (powerManagement initialState 3600).1.savedRuntime : Int) : ℚ)
        / (((powerManagement initialState 3600).1.stop
            - (powerManagement initialState 3600).1.start : Int) : ℚ) * 100 :=
  (C6_progress_formula initialState 3600).1 (by decide)

/-- The interrupted-session scenario, first half: a tick at t0 inside the
window starts a Charging session; `disable` is toggled on and the tick at
t0 + T1 runs the Disabled branch, folding the session into savedRuntime. -/
def carryDisabledTick (start stop t0 T1 : Int) : State :=
  (powerManagement (toggleDisable
    (powerManagement { initialState with start := start, stop := stop } t0).1) (t0 + T1)).1

/-- The interrupted-session scenario, second half: `disable` is toggled off
again, a tick at t1 still inside the window resumes charging, and a further
tick at t1 + T2 reports progress. -/
def carryResumeTick (start stop t0 T1 t1 T2 : Int) : State :=
  (powerManagement (powerManagement (toggleDisable
    (carryDisabledTick start stop t0 T1)) t1).1 (t1 + T2)).1

/-- C4: interrupting a Charging session after T1 seconds with disable folds
the T1 in-progress seconds into savedRuntime on the first Disabled tick, and
after resuming inside the same window for T2 further seconds the reported
progress reflects T1 + T2 elapsed seconds over the window, not T2 alone. -/
theorem C4_carry_over (start stop t0 T1 t1 T2 : Int)
    (hw0 : start ≤ currentTimeinSecs t0 ∧ currentTimeinSecs t0 < stop)
    (hw1 : start ≤ currentTimeinSecs t1 ∧ currentTimeinSecs t1 < stop)
    (hw2 : start ≤ currentTimeinSecs (t1 + T2) ∧ currentTimeinSecs (t1 + T2) < stop) :
    (carryDisabledTick start stop t0 T1).savedRuntime = T1 ∧
    (carryResumeTick start stop t0 T1 t1 T2).chargeState = ChargeState.S_CHARGING ∧
    (carryResumeTick start stop t0 T1 t1 T2).chargeProgress =
      ((T1 + T2 : Int) : ℚ) / ((stop - start : Int) : ℚ) * 100 := by
  unfold carryResumeTick carryDisabledTick
  have hd0 : ({ initialState with start := start, stop := stop } : State).disable = false := rfl
  obtain ⟨a1, a2, a3, a4, a5, a6, a7, a8, a9, a10, a11, a12⟩ :=
    pm_charging { initialState with start := start, stop := stop } t0 hd0 hw0
  set s1 := (powerManagement { initialState with start := start, stop := stop } t0).1 with hs1
  have a6x : s1.runtimeStart = t0 := by rw [a6]; simp [initialState]
  have a7x : s1.savedRuntime = 0 := by rw [a7]; simp [initialState]
  have a8x : s1.disable = false := by rw [a8]; simp [initialState]
  have a9x : s1.start = start := by rw [a9]
  have a10x : s1.stop = stop := by rw [a10]
  have hd2 : (toggleDisable s1).disable = true := by simp [toggleDisable, a8x]
  obtain ⟨b1, b2, b3, b4, b5, b6, b7, b8, b9, b10, b11, b12⟩ :=
    pm_disabled (toggleDisable s1) (t0 + T1) hd2
  set s2 := (powerManagement (toggleDisable s1) (t0 + T1)).1 with hs2
  have hsave2 : s2.savedRuntime = T1 := by
    rw [b7]
    have hcs : (toggleDisable s1).chargeState = ChargeState.S_CHARGING := by
      simpa [toggleDisable] using a1
    rw [if_pos hcs]
    have h1 : (toggleDisable s1).savedRuntime = 0 := by simpa [toggleDisable] using a7x
    have h2 : (toggleDisable s1).runtimeStart = t0 := by simpa [toggleDisable] using a6x
    rw [h1, h2]; ring
  have hd3 : (toggleDisable s2).disable = false := by simp [toggleDisable, b8, hd2, a8x]
  have hst2 : (toggleDisable s2).start = start := by simp [toggleDisable, b9, a9x]
  have hsp2 : (toggleDisable s2).stop = stop := by simp [toggleDisable, b10, a10x]
  have hc2 : (toggleDisable s2).counterEnabled = false := by simpa [toggleDisable] using b5
  have hw1x : (toggleDisable s2).start ≤ currentTimeinSecs t1 ∧
      currentTimeinSecs t1 < (toggleDisable s2).stop := by rw [hst2, hsp2]; exact hw1
  obtain ⟨c1, c2, c3, c4, c5, c6, c7, c8, c9, c10, c11, c12⟩ :=
    pm_charging (toggleDisable s2) t1 hd3 hw1x
  set s3 := (powerManagement (toggleDisable s2) t1).1 with hs3
  have c6x : s3.runtimeStart = t1 := by rw [c6, if_pos hc2]
  have c7x : s3.savedRuntime = T1 := by
    rw [c7]; simpa [toggleDisable] using hsave2
  have c8x : s3.disable = false := by rw [c8]; exact hd3
  have c9x : s3.start = start := by rw [c9]; exact hst2
  have c10x : s3.stop = stop := by rw [c10]; exact hsp2
  have hw2x : s3.start ≤ currentTimeinSecs (t1 + T2) ∧
      currentTimeinSecs (t1 + T2) < s3.stop := by rw [c9x, c10x]; exact hw2
  obtain ⟨d1, d2, d3, d4, d5, d6, d7, d8, d9, d10, d11, d12⟩ :=
    pm_charging s3 (t1 + T2) c8x hw2x
  have hc3 : ¬(s3.counterEnabled = false) := by rw [c5]; simp
  refine ⟨hsave2, d1, ?_⟩
  rw [d11, if_neg hc3, c6x, c7x, c9x, c10x]
  have harith : (t1 + T2 - t1 + T1 : Int) = T1 + T2 := by ring
  rw [harith]

/-- Witness for C4 at concrete inputs: window 00:00–06:00, charging from
midnight, disabled after one hour, resumed at 02:00, evaluated at 03:00:
savedRuntime is 3600 and progress is (3600+3600)/21600 × 100. -/
theorem C4_witness :
    (carryDisabledTick 0 21600 0 3600).savedRuntime = 3600 ∧
    (carryResumeTick 0 21600 0 3600 7200 3600).chargeProgress =
      ((3600 + 3600 : Int) : ℚ) / ((21600 - 0 : Int) : ℚ) * 100 :=
  ⟨(C4_carry_over 0 21600 0 3600 7200 3600 (by decide) (by decide) (by decide)).1,
   (C4_carry_over 0 21600 0 3600 7200 3600 (by decide) (by decide) (by decide)).2.2⟩

set_option maxRecDepth 20000 in
/-- C8: an edge arriving while no debounce window is open flips `manual`
exactly once and opens a window anchored at the current millis; an edge
arriving while a window is open is dropped without effect; with the loop
tick run every millisecond, two edges fired 50 ms apart produce exactly one
flip of `manual` (false to true), while two edges fired 300 ms apart produce
two flips (false to true and back to false). -/
theorem C8_debounce (d : DebounceState) (t : Nat) :
    (d.debounce = false →
      manualOverride d t =
        { debounce := true, debounceStart := t % U32, manual := !d.manual }) ∧
    (d.debounce = true → manualOverride d t = d) ∧
    ((manualOverride ⟨false, 0, false⟩ 1000).manual = true ∧
     (manualOverride (runLoop (manualOverride ⟨false, 0, false⟩ 1000)
        ((List.range 51).map (fun i => 1000 + i))) 1050).manual = true) ∧
    (manualOverride (runLoop (manualOverride ⟨false, 0, false⟩ 1000)
        ((List.range 301).map (fun i => 1000 + i))) 1300).manual = false := by
  refine ⟨fun h => ?_, fun h => ?_, by decide, by decide⟩
  · simp [manualOverride, h]
  · simp [manualOverride, h]

/-- Witness for C8 at concrete inputs: an edge at 1000 ms with the window
closed flips manual and opens a window at 1000; an edge at 1050 ms with a
window open is dropped. -/
theorem C8_witness :
    (⟨false, 0, false⟩ : DebounceState).debounce = false ∧
    manualOverride ⟨false, 0, false⟩ 1000 =
      { debounce := true, debounceStart := 1000 % U32, manual := !false } ∧
    manualOverride ⟨true, 1000, true⟩ 1050 = (⟨true, 1000, true⟩ : DebounceState) :=
  ⟨rfl, (C8_debounce ⟨false, 0, false⟩ 1000).1 rfl,
   (C8_debounce ⟨true, 1000, true⟩ 1050).2.1 rfl⟩

end USBCC
